import Mathlib

/-!
Verification development for the iris inference service
(src/.ipynb_checkpoints/main-checkpoint.py, a FastAPI application).

The embedding translates the Python source into Lean: numeric values are
rationals, trace identifiers are natural numbers rendered through the
Python format(n, "032x") conversion, fallible operations return Except,
and the process-wide mutable state is threaded explicitly.  Framework
behaviour that the source relies on is embedded where the claims need it
and documented at each definition: Starlette places the handler that is
registered for the bare Exception class in the outermost
ServerErrorMiddleware layer, user middleware registered with
app.middleware runs inside that layer, and the ExceptionMiddleware that
converts a raised HTTPException into a JSONResponse runs innermost.
-/

namespace IrisAPI

/-- Exception detail: a Python exception rendered to its message string. -/
abbrev Exc := String

/-- Prediction label produced by the artifact, rendered as a JSON scalar. -/
abbrev Label := String

/-- JSON scalar values appearing in the response bodies of this service. -/
inductive JVal where
  | str (s : String)
  | num (q : ℚ)
deriving DecidableEq

/-- JSON object, kept as the ordered field list the handlers build. -/
abbrev Jobj := List (String × JVal)

/-- HTTP response: status code, optional JSON body, headers.  A header value
is modelled as the parsed rational number; the source stores str(duration),
the decimal rendering of the same number. -/
structure Response where
  status_code : Nat
  body : Option Jobj
  headers : List (String × ℚ)
deriving DecidableEq

/-- Model artifact (the loaded joblib object): a predict function over a
two-dimensional feature array, and, when the hasattr check for
predict_proba succeeds, a probability function.  Either call may raise,
modelled with Except. -/
structure Artifact where
  predict : List (List ℚ) → Except Exc (List Label)
  predict_proba : Option (List (List ℚ) → Except Exc (List (List ℚ)))

/-- Process-wide service state: the app_state dict flags together with the
optional app.state.model attribute. -/
structure AppState where
  is_ready : Bool
  is_alive : Bool
  model : Option Artifact

/-- State at process start: app_state is created with is_ready False and
is_alive True, and the model attribute has not been assigned. -/
def initState : AppState := { is_ready := false, is_alive := true, model := none }

/-- Body of a POST /predict request (the pydantic IrisData schema). -/
structure IrisData where
  sepal_length : ℚ
  sepal_width : ℚ
  petal_length : ℚ
  petal_width : ℚ
deriving DecidableEq

/-- Little-endian hexadecimal digits of n, empty for 0; auxiliary for the
Python conversion format(n, "032x"). -/
def hexRev (n : Nat) : List Char :=
  if h : n = 0 then []
  else Nat.digitChar (n % 16) :: hexRev (n / 16)
decreasing_by exact Nat.div_lt_self (Nat.pos_of_ne_zero h) (by norm_num)

/-- Python format(n, "032x"): lowercase hexadecimal digits of n, padded on
the left with the zero digit to a width of at least 32. -/
def format032x (n : Nat) : String :=
  String.mk (List.replicate (32 - (hexRev n).reverse.length) '0' ++ (hexRev n).reverse)

/-- Fallback trace identifier, the Python expression "0" * 32. -/
def zeros32 : String := String.mk (List.replicate 32 '0')

/-- Reading the current trace identifier:
format(span.get_span_context().trace_id, "032x") inside a try block, with
the fallback zeros32 when the span context machinery raises; the context is
modelled as none in that case. -/
def getTraceId (ctx : Option Nat) : String :=
  match ctx with
  | some tid => format032x tid
  | none => zeros32

/-- Global handler registered for the bare Exception class: it logs an
unhandled_exception event and returns a JSONResponse with status 500 whose
content holds the detail message and the trace_id field. -/
def exception_handler (path : String) (ctx : Option Nat) (exc : Exc) : Response :=
  { status_code := 500
  , body := some [("detail", JVal.str "Internal Server Error"),
                  ("trace_id", JVal.str (getTraceId ctx))]
  , headers := [] }

/-- Python round to the nearest integer with ties going to the even
integer (the rounding used by the built-in round). -/
def roundHalfEven (x : ℚ) : ℤ :=
  if x - ⌊x⌋ < 1 / 2 then ⌊x⌋
  else if 1 / 2 < x - ⌊x⌋ then ⌊x⌋ + 1
  else if Even ⌊x⌋ then ⌊x⌋ else ⌊x⌋ + 1

/-- Python round(x, 2): rounding to two decimal places. -/
def round2 (x : ℚ) : ℚ := (roundHalfEven (x * 100) : ℚ) / 100

/-- Timing middleware add_process_time_header: duration =
round((time.time() - start_time) * 1000, 2) and the X-Process-Time-ms
header is set on the response that call_next returned.  When the inner
application raises, call_next re-raises (Starlette BaseHTTPMiddleware), so
the duration and header lines never run and the exception propagates
outward unchanged. -/
def add_process_time_header (inner : Except Exc Response) (start_time end_time : ℚ) :
    Except Exc Response :=
  match inner with
  | Except.ok response =>
      Except.ok { response with
        headers := ("X-Process-Time-ms", round2 ((end_time - start_time) * 1000))
          :: response.headers }
  | Except.error e => Except.error e

/-- Outermost framework layer (Starlette ServerErrorMiddleware): an
exception escaping the user middleware is passed to the handler registered
for the Exception class.  FastAPI installs that handler here, outside all
user middleware, so its response does not travel back through them. -/
def server_error_layer (inner : Except Exc Response) (path : String) (ctx : Option Nat) :
    Response :=
  match inner with
  | Except.ok r => r
  | Except.error e => exception_handler path ctx e

/-- Default FastAPI conversion of a raised HTTPException(status_code,
detail): a JSONResponse whose content is the detail field.  It runs in
ExceptionMiddleware, inside the user middleware, so these responses do
flow through add_process_time_header. -/
def http_exception_response (status_code : Nat) (detail : String) : Response :=
  { status_code := status_code, body := some [("detail", JVal.str detail)], headers := [] }

/-- Handler of GET /. -/
def home : Response :=
  { status_code := 200, body := some [("message", JVal.str "IRIS Model API is running!")]
  , headers := [] }

/-- Handler of GET /live_check: status alive while is_alive holds,
otherwise a bare 500 response. -/
def liveness_probe (st : AppState) : Response :=
  if st.is_alive then
    { status_code := 200, body := some [("status", JVal.str "alive")], headers := [] }
  else
    { status_code := 500, body := none, headers := [] }

/-- Handler of GET /ready_check: status ready while is_ready holds,
otherwise a bare 503 response. -/
def readiness_probe (st : AppState) : Response :=
  if st.is_ready then
    { status_code := 200, body := some [("status", JVal.str "ready")], headers := [] }
  else
    { status_code := 503, body := none, headers := [] }

/-- Outcome of the predict handler body: a returned dict or a raised
HTTPException. -/
inductive HandlerResult where
  | ok (body : Jobj)
  | httpError (status_code : Nat) (detail : String)
deriving DecidableEq

/-- Instrumented run of POST /predict: the outcome together with the
argument passed to model.predict and to model.predict_proba; the field is
none when the corresponding call site was never reached. -/
structure PredictRun where
  result : HandlerResult
  predictArg : Option (List (List ℚ))
  probaArg : Option (List (List ℚ))

/-- The np.array built from the four request fields: a single row in the
fixed order sepal_length, sepal_width, petal_length, petal_width. -/
def features_of (data : IrisData) : List (List ℚ) :=
  [[data.sepal_length, data.sepal_width, data.petal_length, data.petal_width]]

/-- Confidence computation: proba = model.predict_proba(features) and
confidence = float(np.max(proba)), all inside a try block whose except
clause leaves confidence = None.  np.max raises on an empty array, so the
result is the maximum of the flattened entries when one exists. -/
def confidence_of (pp : List (List ℚ) → Except Exc (List (List ℚ)))
    (features : List (List ℚ)) : Option ℚ :=
  match pp features with
  | Except.error _ => none
  | Except.ok proba => proba.flatten.max?

/-- Body of the predict handler once the guard has passed (the try block of
the source): build the features, call model.predict, take element 0 of the
result, optionally compute the confidence, and assemble the response dict;
any exception raised by the predict call or the indexing becomes
HTTPException(500, "Prediction failed"). -/
def predict_body (model : Artifact) (data : IrisData) : PredictRun :=
  let features := features_of data
  match model.predict features with
  | Except.error _ =>
      { result := HandlerResult.httpError 500 "Prediction failed"
      , predictArg := some features, probaArg := none }
  | Except.ok pred =>
    match pred.head? with
    | none =>
        { result := HandlerResult.httpError 500 "Prediction failed"
        , predictArg := some features, probaArg := none }
    | some predicted =>
      match model.predict_proba with
      | none =>
          { result := HandlerResult.ok [("predicted_species", JVal.str predicted)]
          , predictArg := some features, probaArg := none }
      | some pp =>
        match confidence_of pp features with
        | none =>
            { result := HandlerResult.ok [("predicted_species", JVal.str predicted)]
            , predictArg := some features, probaArg := some features }
        | some c =>
            { result := HandlerResult.ok
                [("predicted_species", JVal.str predicted), ("confidence", JVal.num c)]
            , predictArg := some features, probaArg := some features }

/-- Handler of POST /predict: when app_state is_ready is false or the model
attribute is absent it raises HTTPException(503, "Model not ready") before
any use of the artifact; otherwise it runs the handler body. -/
def predictRun (st : AppState) (data : IrisData) : PredictRun :=
  if !st.is_ready || st.model.isNone then
    { result := HandlerResult.httpError 503 "Model not ready"
    , predictArg := none, probaArg := none }
  else
    match st.model with
    | some model => predict_body model data
    | none =>
        { result := HandlerResult.httpError 503 "Model not ready"
        , predictArg := none, probaArg := none }

/-- Routes exposed by the application. -/
inductive Route where
  | home
  | live_check
  | ready_check
  | predict (data : IrisData)

/-- URL path of each route. -/
def pathOf : Route → String
  | Route.home => "/"
  | Route.live_check => "/live_check"
  | Route.ready_check => "/ready_check"
  | Route.predict _ => "/predict"

/-- Router together with ExceptionMiddleware: dispatch to the handler of
the route and convert a raised HTTPException into the standard
JSONResponse. -/
def routeRequest (st : AppState) (r : Route) : Response :=
  match r with
  | Route.home => home
  | Route.live_check => liveness_probe st
  | Route.ready_check => readiness_probe st
  | Route.predict data =>
    match (predictRun st data).result with
    | HandlerResult.ok body => { status_code := 200, body := some body, headers := [] }
    | HandlerResult.httpError s d => http_exception_response s d

/-- Full middleware stack in the order Starlette builds it:
ServerErrorMiddleware hosting the Exception handler outermost, the user
timing middleware inside it, and the routed application innermost. -/
def pipeline (inner : Except Exc Response) (start_time end_time : ℚ)
    (path : String) (ctx : Option Nat) : Response :=
  server_error_layer (add_process_time_header inner start_time end_time) path ctx

/-- Processing of one request through the full stack. -/
def handleRequest (st : AppState) (r : Route) (start_time end_time : ℚ)
    (ctx : Option Nat) : Response :=
  pipeline (Except.ok (routeRequest st r)) start_time end_time (pathOf r) ctx

/-- State-passing form of request processing: the route handlers read
app_state and app.state.model but contain no assignment to either, so the
state component is returned unchanged. -/
def handleRequestSt (st : AppState) (r : Route) (start_time end_time : ℚ)
    (ctx : Option Nat) : AppState × Response :=
  (st, handleRequest st r start_time end_time ctx)

/-- Startup event: load(MODEL_PATH) is attempted exactly once; on success
the artifact is stored in app.state.model and is_ready is set True
afterwards; on failure the except clause sets is_ready False and the model
assignment never executes. -/
def startup_event (st : AppState) (loadResult : Except Exc Artifact) : AppState :=
  match loadResult with
  | Except.error _ => { st with is_ready := false }
  | Except.ok m => { st with model := some m, is_ready := true }

/-- One inbound request event: its route, the wall-clock start and end
times observed by the timing middleware, and the trace context available
while it is processed. -/
structure ReqEv where
  route : Route
  start_time : ℚ
  end_time : ℚ
  ctx : Option Nat

/-- Runs a sequence of requests, threading the service state. -/
def runRequests (st : AppState) : List ReqEv → AppState
  | [] => st
  | e :: rest => runRequests (handleRequestSt st e.route e.start_time e.end_time e.ctx).1 rest

/-- Service state after the one-time startup with the given load outcome,
followed by any sequence of requests. -/
def stateAfter (loadResult : Except Exc Artifact) (evs : List ReqEv) : AppState :=
  runRequests (startup_event initState loadResult) evs

/-- Reachable process states: the initial state, or any state reached after
startup and a sequence of requests. -/
def Reachable (st : AppState) : Prop :=
  st = initState ∨ ∃ loadResult evs, st = stateAfter loadResult evs

/-- Character class of the regex fragment [0-9a-f]. -/
def isHexChar (c : Char) : Bool :=
  c.isDigit || (decide ('a' ≤ c) && decide (c ≤ 'f'))

/-- Matcher for the spec regex: exactly 32 characters, each in [0-9a-f]. -/
def isHex32 (s : String) : Bool :=
  s.length == 32 && s.data.all isHexChar

/-- Whether a response body contains a trace identifier: some field whose
string value matches the regex. -/
def bodyHasTraceId (r : Response) : Bool :=
  match r.body with
  | none => false
  | some b => b.any (fun kv =>
      match kv.2 with
      | JVal.str s => isHex32 s
      | JVal.num _ => false)

/-- Test fixture: an artifact without probability support. -/
def artifactNoProba : Artifact :=
  { predict := fun _ => Except.ok ["setosa"], predict_proba := none }

/-- Test fixture: an artifact whose probability method returns one row. -/
def artifactProba : Artifact :=
  { predict := fun _ => Except.ok ["setosa"]
  , predict_proba := some (fun _ => Except.ok [[1/2, 3/10, 1/5]]) }

/-- Test fixture: a ready state holding artifactProba. -/
def readyState : AppState :=
  { is_ready := true, is_alive := true, model := some artifactProba }

/-- Test fixture: a concrete request body. -/
def dataW : IrisData := { sepal_length := 1, sepal_width := 2, petal_length := 3, petal_width := 4 }

theorem hexRev_length_le : ∀ (k n : Nat), n < 16 ^ k → (hexRev n).length ≤ k := by
  intro k
  induction k with
  | zero =>
    intro n hn
    have hn0 : n = 0 := by simpa using hn
    subst hn0
    rw [hexRev]
    simp
  | succ k ih =>
    intro n hn
    rw [hexRev]
    split
    · simp
    · rename_i h
      simp only [List.length_cons]
      have hdiv : n / 16 < 16 ^ k := by
        rw [Nat.div_lt_iff_lt_mul (by norm_num)]
        calc n < 16 ^ (k + 1) := hn
          _ = 16 ^ k * 16 := by ring
      exact Nat.succ_le_succ (ih (n / 16) hdiv)

theorem hexRev_all_hex (n : Nat) : (hexRev n).all isHexChar = true := by
  induction n using Nat.strong_induction_on with
  | _ n ih =>
    rw [hexRev]
    split
    · simp
    · rename_i h
      simp only [List.all_cons, Bool.and_eq_true]
      refine ⟨?_, ih (n / 16) (Nat.div_lt_self (Nat.pos_of_ne_zero h) (by norm_num))⟩
      have h16 : n % 16 < 16 := Nat.mod_lt _ (by norm_num)
      have hall : ∀ m, m < 16 → isHexChar (Nat.digitChar m) = true := by decide
      exact hall _ h16

theorem isHex32_format032x {n : Nat} (hn : n < 2 ^ 128) : isHex32 (format032x n) = true := by
  have h16 : n < 16 ^ 32 := by
    have h : (16 : ℕ) ^ 32 = 2 ^ 128 := by norm_num
    rw [h]
    exact hn
  have hlen : (hexRev n).length ≤ 32 := hexRev_length_le 32 n h16
  unfold isHex32 format032x
  rw [Bool.and_eq_true]
  constructor
  · simp only [String.length_mk, List.length_append, List.length_replicate,
      List.length_reverse, beq_iff_eq]
    omega
  · simp only [List.all_append, List.all_reverse, Bool.and_eq_true]
    refine ⟨?_, hexRev_all_hex n⟩
    simp only [List.all_replicate]
    split
    · rfl
    · decide

theorem isHex32_zeros32 : isHex32 zeros32 = true := by
  unfold isHex32 zeros32
  decide

theorem runRequests_id (evs : List ReqEv) (st : AppState) : runRequests st evs = st := by
  induction evs with
  | nil => rfl
  | cons e rest ih => simpa [runRequests, handleRequestSt] using ih

theorem stateAfter_eq (loadResult : Except Exc Artifact) (evs : List ReqEv) :
    stateAfter loadResult evs = startup_event initState loadResult := by
  rw [stateAfter, runRequests_id]

/-- C1: for every POST /predict request processed while the readiness flag
is false or no model artifact has been stored, the handler returns status
503 with body detail "Model not ready" and the predict method of the
artifact is never invoked: the readiness guard precedes any artifact use. -/
theorem predict_not_ready_503 (st : AppState) (data : IrisData)
    (s e : ℚ) (ctx : Option Nat)
    (h : st.is_ready = false ∨ st.model = none) :
    (handleRequest st (Route.predict data) s e ctx).status_code = 503 ∧
    (handleRequest st (Route.predict data) s e ctx).body =
      some [("detail", JVal.str "Model not ready")] ∧
    (predictRun st data).predictArg = none := by
  have hguard : (!st.is_ready || st.model.isNone) = true := by
    rcases h with h | h
    · simp [h]
    · simp [h]
  simp [handleRequest, pipeline, add_process_time_header, server_error_layer,
    routeRequest, predictRun, hguard, http_exception_response]

theorem predict_not_ready_503_witness :
    (initState.is_ready = false ∨ initState.model = none) ∧
    ((handleRequest initState (Route.predict dataW) 0 0 none).status_code = 503 ∧
     (handleRequest initState (Route.predict dataW) 0 0 none).body =
       some [("detail", JVal.str "Model not ready")] ∧
     (predictRun initState dataW).predictArg = none) :=
  ⟨Or.inl rfl, predict_not_ready_503 initState dataW 0 0 none (Or.inl rfl)⟩

/-- C3: readiness is one-way.  It starts false; after startup it is true
exactly when the load succeeded, and no later request changes it.  Before
the load completes, POST /predict and GET /ready_check both answer 503;
after a successful load, GET /ready_check answers 200 with status ready in
every subsequent state. -/
theorem readiness_one_way :
    initState.is_ready = false ∧
    (∀ loadResult evs, (stateAfter loadResult evs).is_ready =
        (match loadResult with
         | Except.ok _ => true
         | Except.error _ => false)) ∧
    (∀ data s e ctx,
      (handleRequest initState (Route.predict data) s e ctx).status_code = 503 ∧
      (handleRequest initState Route.ready_check s e ctx).status_code = 503) ∧
    (∀ a evs s e ctx,
      (handleRequest (stateAfter (Except.ok a) evs) Route.ready_check s e ctx).status_code
          = 200 ∧
      (handleRequest (stateAfter (Except.ok a) evs) Route.ready_check s e ctx).body =
        some [("status", JVal.str "ready")]) := by
  refine ⟨rfl, ?_, ?_, ?_⟩
  · intro loadResult evs
    rw [stateAfter_eq]
    cases loadResult <;> rfl
  · intro data s e ctx
    constructor
    · rfl
    · rfl
  · intro a evs s e ctx
    rw [stateAfter_eq]
    constructor
    · rfl
    · rfl

/-- C7: the global exception mapper returns the uniform 500 response whose
body holds the detail Internal Server Error together with the current trace
identifier, and when the span context is unavailable it substitutes the
identifier made of 32 zero characters instead of failing the request. -/
theorem exception_handler_uniform (path : String) (ctx : Option Nat) (exc : Exc) :
    exception_handler path ctx exc =
      { status_code := 500
      , body := some [("detail", JVal.str "Internal Server Error"),
                      ("trace_id", JVal.str (getTraceId ctx))]
      , headers := [] } ∧
    getTraceId none = zeros32 ∧
    zeros32.length = 32 ∧
    zeros32.data.all (fun c => c == '0') = true := by
  refine ⟨rfl, rfl, ?_, ?_⟩
  · decide
  · decide

/-- C8: no operation of the service sets the liveness flag false, so in
every reachable state GET /live_check answers 200 with status alive. -/
theorem liveness_always_alive (st : AppState) (h : Reachable st) :
    st.is_alive = true ∧
    ∀ s e ctx, (handleRequest st Route.live_check s e ctx).status_code = 200 ∧
      (handleRequest st Route.live_check s e ctx).body =
        some [("status", JVal.str "alive")] := by
  have halive : st.is_alive = true := by
    rcases h with rfl | ⟨lr, evs, rfl⟩
    · rfl
    · rw [stateAfter_eq]
      cases lr <;> rfl
  refine ⟨halive, ?_⟩
  intro s e ctx
  constructor
  · simp [handleRequest, pipeline, add_process_time_header, server_error_layer,
      routeRequest, liveness_probe, halive]
  · simp [handleRequest, pipeline, add_process_time_header, server_error_layer,
      routeRequest, liveness_probe, halive]

theorem liveness_always_alive_witness :
    Reachable initState ∧
    (initState.is_alive = true ∧
     ∀ s e ctx, (handleRequest initState Route.live_check s e ctx).status_code = 200 ∧
       (handleRequest initState Route.live_check s e ctx).body =
         some [("status", JVal.str "alive")]) :=
  ⟨Or.inl rfl, liveness_always_alive initState (Or.inl rfl)⟩

/-- C10: no request handler mutates the shared service state: for every
route and outcome the state component returned by the state-passing handler
equals the input state in all three fields, and any sequence of requests
leaves the state fixed; only startup_event writes. -/
theorem handlers_frame (st : AppState) (r : Route) (s e : ℚ) (ctx : Option Nat)
    (evs : List ReqEv) :
    (handleRequestSt st r s e ctx).1.is_ready = st.is_ready ∧
    (handleRequestSt st r s e ctx).1.is_alive = st.is_alive ∧
    (handleRequestSt st r s e ctx).1.model = st.model ∧
    runRequests st evs = st :=
  ⟨rfl, rfl, rfl, runRequests_id evs st⟩

/-- C2 counterexample: the 503 not-ready error response carries no trace
identifier at all; its body holds only the detail message, and no field of
that body matches the regex. -/
theorem error_body_trace_cex :
    (handleRequest initState (Route.predict dataW) 0 0 none).status_code = 503 ∧
    bodyHasTraceId (handleRequest initState (Route.predict dataW) 0 0 none) = false := by
  constructor
  · rfl
  · rfl

/-- C2 amended: only the unhandled-exception 500 response carries a trace
identifier, and that identifier always matches the regex, both for a
128-bit span trace id and for the all-zero fallback; the 503 not-ready and
500 prediction-failed responses carry only the detail field, so their
bodies contain no trace identifier. -/
theorem error_body_trace_amended (path : String) (exc : Exc) (n : Nat)
    (st : AppState) (data : IrisData) (s e : ℚ) (ctx : Option Nat)
    (hn : n < 2 ^ 128) :
    bodyHasTraceId (exception_handler path (some n) exc) = true ∧
    bodyHasTraceId (exception_handler path none exc) = true ∧
    ((predictRun st data).result = HandlerResult.httpError 503 "Model not ready" →
      bodyHasTraceId (handleRequest st (Route.predict data) s e ctx) = false) ∧
    ((predictRun st data).result = HandlerResult.httpError 500 "Prediction failed" →
      bodyHasTraceId (handleRequest st (Route.predict data) s e ctx) = false) := by
  refine ⟨?_, ?_, ?_, ?_⟩
  · simp [bodyHasTraceId, exception_handler, getTraceId, isHex32_format032x hn]
  · simp [bodyHasTraceId, exception_handler, getTraceId, isHex32_zeros32]
  · intro hres
    unfold bodyHasTraceId
    simp only [handleRequest, pipeline, add_process_time_header, server_error_layer,
      routeRequest, hres, http_exception_response]
    rfl
  · intro hres
    unfold bodyHasTraceId
    simp only [handleRequest, pipeline, add_process_time_header, server_error_layer,
      routeRequest, hres, http_exception_response]
    rfl

theorem error_body_trace_amended_witness :
    1 < 2 ^ 128 ∧
    (bodyHasTraceId (exception_handler "/predict" (some 1) "boom") = true ∧
     bodyHasTraceId (exception_handler "/predict" none "boom") = true ∧
     ((predictRun initState dataW).result = HandlerResult.httpError 503 "Model not ready" →
       bodyHasTraceId (handleRequest initState (Route.predict dataW) 0 0 none) = false) ∧
     ((predictRun initState dataW).result = HandlerResult.httpError 500 "Prediction failed" →
       bodyHasTraceId (handleRequest initState (Route.predict dataW) 0 0 none) = false)) :=
  ⟨by norm_num,
   error_body_trace_amended "/predict" "boom" 1 initState dataW 0 0 none (by norm_num)⟩

/-- C4 counterexample: a response produced by the global exception mapper
carries no X-Process-Time-ms header at all, because the exception
propagates past the timing middleware and the handler registered for the
Exception class runs in the outermost framework layer. -/
theorem process_time_header_cex :
    (pipeline (Except.error "boom") 0 1 "/predict" none).status_code = 500 ∧
    (pipeline (Except.error "boom") 0 1 "/predict" none).body =
      some [("detail", JVal.str "Internal Server Error"),
            ("trace_id", JVal.str zeros32)] ∧
    (pipeline (Except.error "boom") 0 1 "/predict" none).headers.lookup
      "X-Process-Time-ms" = none :=
  ⟨rfl, rfl, rfl⟩

theorem routeRequest_headers (st : AppState) (r : Route) : (routeRequest st r).headers = [] := by
  cases r with
  | home => rfl
  | live_check =>
    simp only [routeRequest, liveness_probe]
    split <;> rfl
  | ready_check =>
    simp only [routeRequest, readiness_probe]
    split <;> rfl
  | predict data =>
    simp only [routeRequest]
    cases (predictRun st data).result with
    | ok body => rfl
    | httpError s d => rfl

theorem roundHalfEven_nonneg {x : ℚ} (hx : 0 ≤ x) : 0 ≤ roundHalfEven x := by
  have h0 : (0 : ℤ) ≤ ⌊x⌋ := Int.floor_nonneg.mpr hx
  unfold roundHalfEven
  split
  · exact h0
  · split
    · omega
    · split
      · exact h0
      · omega

/-- C4 amended: every response produced from a routed outcome — success,
the 503 not-ready error, the 500 prediction-failed error, and every other
HTTPException-mapped response — carries the X-Process-Time-ms header whose
value is a non-negative number of milliseconds rounded to two decimals,
provided the end time is at or after the start time; responses produced by
the global exception mapper bypass the timing middleware and lack the
header. -/
theorem process_time_header_amended (st : AppState) (r : Route) (s e : ℚ)
    (ctx : Option Nat) (h : s ≤ e) :
    (handleRequest st r s e ctx).headers.lookup "X-Process-Time-ms" =
      some (round2 ((e - s) * 1000)) ∧
    0 ≤ round2 ((e - s) * 1000) ∧
    (∃ k : ℤ, round2 ((e - s) * 1000) * 100 = (k : ℚ)) := by
  refine ⟨?_, ?_, ?_⟩
  · simp [handleRequest, pipeline, add_process_time_header, server_error_layer,
      List.lookup, routeRequest_headers]
  · have hx : 0 ≤ (e - s) * 1000 * 100 := by
      have h1 : 0 ≤ e - s := sub_nonneg.mpr h
      positivity
    have h2 : (0 : ℤ) ≤ roundHalfEven ((e - s) * 1000 * 100) := roundHalfEven_nonneg hx
    unfold round2
    positivity
  · refine ⟨roundHalfEven ((e - s) * 1000 * 100), ?_⟩
    unfold round2
    field_simp

theorem process_time_header_amended_witness :
    (0 : ℚ) ≤ 1 ∧
    ((handleRequest initState Route.home 0 1 none).headers.lookup "X-Process-Time-ms" =
       some (round2 ((1 - 0) * 1000)) ∧
     0 ≤ round2 ((1 - 0) * 1000) ∧
     (∃ k : ℤ, round2 ((1 - 0) * 1000) * 100 = (k : ℚ))) :=
  ⟨by norm_num, process_time_header_amended initState Route.home 0 1 none (by norm_num)⟩

theorem predict_body_predictArg (m : Artifact) (data : IrisData) :
    (predict_body m data).predictArg = some (features_of data) := by
  simp only [predict_body]
  cases hp : m.predict (features_of data) with
  | error err => rfl
  | ok pred =>
    cases hh : pred.head? with
    | none => simp [hh]
    | some predicted =>
      cases hpp : m.predict_proba with
      | none => simp [hh, hpp]
      | some pp =>
        cases hc : confidence_of pp (features_of data) with
        | none => simp [hh, hpp, hc]
        | some c => simp [hh, hpp, hc]

theorem predictRun_ready (st : AppState) (data : IrisData) (m : Artifact)
    (hready : st.is_ready = true) (hm : st.model = some m) :
    predictRun st data = predict_body m data := by
  unfold predictRun
  rw [hready, hm]
  rfl

/-- C5: for every ready-state POST /predict request, the feature matrix
passed to the predict method of the artifact is exactly the single row in
the fixed field order sepal_length, sepal_width, petal_length, petal_width
of the request body. -/
theorem predict_feature_order (st : AppState) (data : IrisData) (m : Artifact)
    (hready : st.is_ready = true) (hm : st.model = some m) :
    (predictRun st data).predictArg =
      some [[data.sepal_length, data.sepal_width, data.petal_length, data.petal_width]] := by
  rw [predictRun_ready st data m hready hm, predict_body_predictArg]
  rfl

theorem predict_feature_order_witness :
    readyState.is_ready = true ∧ readyState.model = some artifactProba ∧
    (predictRun readyState dataW).predictArg = some [[1, 2, 3, 4]] :=
  ⟨rfl, rfl, predict_feature_order readyState dataW artifactProba rfl rfl⟩

theorem predict_body_spec (m : Artifact) (data : IrisData) (labels : List Label) (lbl : Label)
    (hp : m.predict (features_of data) = Except.ok labels)
    (hhead : labels.head? = some lbl) :
    ∃ body, (predict_body m data).result = HandlerResult.ok body ∧
      body.lookup "predicted_species" = some (JVal.str lbl) ∧
      ((body.lookup "confidence").isSome = true ↔
        ∃ pp proba, m.predict_proba = some pp ∧
          pp (features_of data) = Except.ok proba ∧ proba.flatten ≠ []) ∧
      (∀ c : ℚ, body.lookup "confidence" = some (JVal.num c) →
        ∃ pp proba, m.predict_proba = some pp ∧
          pp (features_of data) = Except.ok proba ∧ proba.flatten.max? = some c) := by
  have hb1 : (("predicted_species" : String) == "predicted_species") = true := by decide
  have hb2 : (("confidence" : String) == "predicted_species") = false := by decide
  have hb3 : (("confidence" : String) == "confidence") = true := by decide
  simp only [predict_body, hp, hhead]
  cases hpp : m.predict_proba with
  | none =>
    refine ⟨[("predicted_species", JVal.str lbl)], rfl, ?_, ?_, ?_⟩
    · simp [List.lookup, hb1]
    · have hlk : List.lookup "confidence" [("predicted_species", JVal.str lbl)] =
          (none : Option JVal) := by
        simp [List.lookup, hb2]
      rw [hlk]
      constructor
      · intro hs
        exact absurd hs (by simp)
      · rintro ⟨pp, proba, hpp', _, _⟩
        exact Option.noConfusion hpp'
    · intro c hc
      simp [List.lookup, hb2] at hc
  | some pp =>
    cases hres : pp (features_of data) with
    | error err =>
      have hcnone : confidence_of pp (features_of data) = none := by
        unfold confidence_of
        rw [hres]
      simp only [hcnone]
      refine ⟨[("predicted_species", JVal.str lbl)], rfl, ?_, ?_, ?_⟩
      · simp [List.lookup, hb1]
      · have hlk : List.lookup "confidence" [("predicted_species", JVal.str lbl)] =
            (none : Option JVal) := by
          simp [List.lookup, hb2]
        rw [hlk]
        constructor
        · intro hs
          exact absurd hs (by simp)
        · rintro ⟨pp', proba, hpp', hok, _⟩
          injection hpp' with hppe
          subst hppe
          rw [hres] at hok
          exact Except.noConfusion hok
      · intro c hc
        simp [List.lookup, hb2] at hc
    | ok proba =>
      cases hmax : proba.flatten.max? with
      | none =>
        have hflat : proba.flatten = [] := List.max?_eq_none_iff.mp hmax
        have hcnone : confidence_of pp (features_of data) = none := by
          unfold confidence_of
          rw [hres]
          exact hmax
        simp only [hcnone]
        refine ⟨[("predicted_species", JVal.str lbl)], rfl, ?_, ?_, ?_⟩
        · simp [List.lookup, hb1]
        · have hlk : List.lookup "confidence" [("predicted_species", JVal.str lbl)] =
              (none : Option JVal) := by
            simp [List.lookup, hb2]
          rw [hlk]
          constructor
          · intro hs
            exact absurd hs (by simp)
          · rintro ⟨pp', proba', hpp', hok, hne⟩
            injection hpp' with hppe
            subst hppe
            rw [hres] at hok
            injection hok with hpr
            subst hpr
            exact absurd hflat hne
        · intro c hc
          simp [List.lookup, hb2] at hc
      | some c0 =>
        have hcsome : confidence_of pp (features_of data) = some c0 := by
          unfold confidence_of
          rw [hres]
          exact hmax
        simp only [hcsome]
        refine ⟨[("predicted_species", JVal.str lbl), ("confidence", JVal.num c0)],
          rfl, ?_, ?_, ?_⟩
        · simp [List.lookup, hb1]
        · have hlk : List.lookup "confidence"
              [("predicted_species", JVal.str lbl), ("confidence", JVal.num c0)] =
              some (JVal.num c0) := by
            simp [List.lookup, hb2, hb3]
          rw [hlk]
          constructor
          · intro _
            refine ⟨pp, proba, rfl, hres, ?_⟩
            intro hflat
            rw [hflat] at hmax
            simp at hmax
          · intro _
            rfl
        · intro c hc
          have hlk : List.lookup "confidence"
              [("predicted_species", JVal.str lbl), ("confidence", JVal.num c0)] =
              some (JVal.num c0) := by
            simp [List.lookup, hb2, hb3]
          rw [hlk] at hc
          injection hc with hcv
          injection hcv with hce
          subst hce
          exact ⟨pp, proba, rfl, hres, hmax⟩

/-- C6: in a successful POST /predict run, the confidence field is present
if and only if the artifact exposes a probability method and that
computation succeeded (the returned probability array was produced and was
nonempty); when present the value is the np.max of the returned
probabilities — for the single-row result, the maximum class probability of
the input — and a failed confidence computation still yields a 200 response
that merely omits the field. -/
theorem confidence_iff (st : AppState) (data : IrisData) (m : Artifact)
    (labels : List Label) (lbl : Label)
    (hready : st.is_ready = true) (hm : st.model = some m)
    (hp : m.predict (features_of data) = Except.ok labels)
    (hhead : labels.head? = some lbl) :
    ∃ body, (predictRun st data).result = HandlerResult.ok body ∧
      (routeRequest st (Route.predict data)).status_code = 200 ∧
      body.lookup "predicted_species" = some (JVal.str lbl) ∧
      ((body.lookup "confidence").isSome = true ↔
        ∃ pp proba, m.predict_proba = some pp ∧
          pp (features_of data) = Except.ok proba ∧ proba.flatten ≠ []) ∧
      (∀ c : ℚ, body.lookup "confidence" = some (JVal.num c) →
        ∃ pp proba, m.predict_proba = some pp ∧
          pp (features_of data) = Except.ok proba ∧ proba.flatten.max? = some c) ∧
      (∀ (pp : List (List ℚ) → Except Exc (List (List ℚ))) (row : List ℚ) (c : ℚ),
        m.predict_proba = some pp → pp (features_of data) = Except.ok [row] →
        body.lookup "confidence" = some (JVal.num c) → row.max? = some c) := by
  obtain ⟨body, hres, hlook, hiff, hval⟩ := predict_body_spec m data labels lbl hp hhead
  have hrun : predictRun st data = predict_body m data := predictRun_ready st data m hready hm
  have hres' : (predictRun st data).result = HandlerResult.ok body := by
    rw [hrun]
    exact hres
  refine ⟨body, hres', ?_, hlook, hiff, hval, ?_⟩
  · simp [routeRequest, hres']
  · intro pp row c hpp hrow hc
    obtain ⟨pp', proba, hpp', hok, hmax⟩ := hval c hc
    rw [hpp] at hpp'
    injection hpp' with hppe
    subst hppe
    rw [hrow] at hok
    injection hok with hpr
    subst hpr
    simpa using hmax

theorem confidence_iff_witness :
    readyState.is_ready = true ∧ readyState.model = some artifactProba ∧
    artifactProba.predict (features_of dataW) = Except.ok ["setosa"] ∧
    (["setosa"] : List Label).head? = some "setosa" ∧
    (∃ body, (predictRun readyState dataW).result = HandlerResult.ok body ∧
      (routeRequest readyState (Route.predict dataW)).status_code = 200 ∧
      body.lookup "predicted_species" = some (JVal.str "setosa") ∧
      ((body.lookup "confidence").isSome = true ↔
        ∃ pp proba, artifactProba.predict_proba = some pp ∧
          pp (features_of dataW) = Except.ok proba ∧ proba.flatten ≠ []) ∧
      (∀ c : ℚ, body.lookup "confidence" = some (JVal.num c) →
        ∃ pp proba, artifactProba.predict_proba = some pp ∧
          pp (features_of dataW) = Except.ok proba ∧ proba.flatten.max? = some c) ∧
      (∀ (pp : List (List ℚ) → Except Exc (List (List ℚ))) (row : List ℚ) (c : ℚ),
        artifactProba.predict_proba = some pp → pp (features_of dataW) = Except.ok [row] →
        body.lookup "confidence" = some (JVal.num c) → row.max? = some c)) :=
  ⟨rfl, rfl, rfl, rfl,
   confidence_iff readyState dataW artifactProba ["setosa"] "setosa" rfl rfl rfl rfl⟩

/-- C9: for every POST /predict input handled successfully, the response
body contains predicted_species, and when the confidence field is present
its value lies in the closed unit interval, under the hypothesis that every
class probability returned by the probability method of the artifact lies
in the closed unit interval. -/
theorem confidence_unit_interval (st : AppState) (data : IrisData) (m : Artifact)
    (labels : List Label) (lbl : Label)
    (hready : st.is_ready = true) (hm : st.model = some m)
    (hp : m.predict (features_of data) = Except.ok labels)
    (hhead : labels.head? = some lbl)
    (hprob : ∀ pp proba q, m.predict_proba = some pp →
      pp (features_of data) = Except.ok proba → q ∈ proba.flatten → 0 ≤ q ∧ q ≤ 1) :
    ∃ body, (predictRun st data).result = HandlerResult.ok body ∧
      body.lookup "predicted_species" = some (JVal.str lbl) ∧
      ∀ c : ℚ, body.lookup "confidence" = some (JVal.num c) → 0 ≤ c ∧ c ≤ 1 := by
  obtain ⟨body, hres, hlook, _, hval⟩ := predict_body_spec m data labels lbl hp hhead
  have hrun : predictRun st data = predict_body m data := predictRun_ready st data m hready hm
  have hres' : (predictRun st data).result = HandlerResult.ok body := by
    rw [hrun]
    exact hres
  refine ⟨body, hres', hlook, ?_⟩
  intro c hc
  obtain ⟨pp, proba, hpp, hok, hmax⟩ := hval c hc
  have hmem : c ∈ proba.flatten := List.max?_mem (fun a b => max_choice a b) hmax
  exact hprob pp proba c hpp hok hmem

theorem confidence_unit_interval_witness :
    (∀ pp proba q, artifactProba.predict_proba = some pp →
      pp (features_of dataW) = Except.ok proba → q ∈ proba.flatten → 0 ≤ q ∧ q ≤ 1) ∧
    (∃ body, (predictRun readyState dataW).result = HandlerResult.ok body ∧
      body.lookup "predicted_species" = some (JVal.str "setosa") ∧
      ∀ c : ℚ, body.lookup "confidence" = some (JVal.num c) → 0 ≤ c ∧ c ≤ 1) := by
  have hprob : ∀ pp proba q, artifactProba.predict_proba = some pp →
      pp (features_of dataW) = Except.ok proba → q ∈ proba.flatten → 0 ≤ q ∧ q ≤ 1 := by
    intro pp proba q h1 h2 hq
    have h1' : some (fun _ : List (List ℚ) =>
        (Except.ok [[(1 : ℚ)/2, 3/10, 1/5]] : Except Exc (List (List ℚ)))) = some pp := h1
    injection h1' with hf
    rw [← hf] at h2
    have h2' : (Except.ok [[(1 : ℚ)/2, 3/10, 1/5]] : Except Exc (List (List ℚ))) =
        Except.ok proba := h2
    injection h2' with hpr
    rw [← hpr] at hq
    simp at hq
    rcases hq with h | h | h <;> subst h <;> constructor <;> norm_num
  exact ⟨hprob,
    confidence_unit_interval readyState dataW artifactProba ["setosa"] "setosa"
      rfl rfl rfl rfl hprob⟩

end IrisAPI
